import Mathlib

/-!
Shallow embedding of `src/analysis/rq2_compliance_check.py`, the
architectural-conformance checker for ten constraints C1..C10.

Each source file of the scanned tree is modelled as a `JavaFile` record
carrying the facts the checker extracts lexically from the raw text:
the full path string, the declared package (`get_package`, empty string
when no package declaration is found) and the ordered import list
(`get_imports`).  The whole scanned tree is a `RepoTree`: the ordered
file enumeration (`find_java_files`), the directory entries found under
the UC03 infrastructure subtree (used only by `check_c1_c2`), and the
contents of the `api/openapi` contracts directory (used only by
`check_c8`).

All regex patterns of the source are escaped literals, so pattern
search (`re.search`) is modelled as substring containment, and the
single alternation regex of C2 as "any of these literal substrings".
Lower-casing is modelled per ASCII character, matching `str.lower` on
the ASCII paths and packages the checker deals with.
-/

/-- Substring test on character lists: `hasInfixCL pat hay` is true iff
`pat` occurs contiguously inside `hay` (Python's `pat in hay`). -/
def hasInfixCL (pat : List Char) : List Char → Bool
  | [] => pat.isEmpty
  | c :: t => pat.isPrefixOf (c :: t) || hasInfixCL pat t

/-- Python `pat in s` on strings. -/
def hasSubstr (s pat : String) : Bool := hasInfixCL pat.data s.data

/-- Python `s.endswith(pat)`. -/
def strEndsWith (s pat : String) : Bool := pat.data.isSuffixOf s.data

/-- Python `s.startswith(pat)`. -/
def strStartsWith (s pat : String) : Bool := pat.data.isPrefixOf s.data

/-- Path normalisation used throughout the checker:
`str(path).lower().replace("\\", "/")`.  `replace` with a one-character
pattern is a per-character map, so the whole normalisation is one map. -/
def normPath (s : String) : String :=
  String.mk (s.data.map fun c => if c.toLower = '\\' then '/' else c.toLower)

/-- Lexicographic-by-code-point comparison of character lists, the order
Python's `sorted` uses on strings. -/
def charListLe : List Char → List Char → Bool
  | [], _ => true
  | _ :: _, [] => false
  | a :: as, b :: bs =>
    if a.toNat < b.toNat then true
    else if b.toNat < a.toNat then false
    else charListLe as bs

/-- String comparison backing Python's `sorted` over the result keys. -/
def strLeB (a b : String) : Bool := charListLe a.data b.data

/-- Splits a character list at a separator character (used for path
components and for dotted package segments). -/
def splitCL (sep : Char) : List Char → List (List Char)
  | [] => [[]]
  | c :: t =>
    match splitCL sep t with
    | [] => [[]]
    | g :: gs => if c = sep then [] :: g :: gs else (c :: g) :: gs

/-- The dotted segments of a package or import string. -/
def dotSegments (s : String) : List String :=
  (splitCL '.' s.data).map String.mk

/-- `pathlib.Path(p).name`: the last non-empty slash-separated component. -/
def lastComponent (s : String) : String :=
  String.mk (((splitCL '/' s.data).filter fun x => !x.isEmpty).getLastD [])

/-- Index of the last `'.'` in a character list, if any. -/
def lastDotIdx (l : List Char) : Option Nat :=
  ((List.range l.length).filter fun i => l.getD i 'x' = '.').getLast?

/-- `pathlib.Path` stem computation on a file name: drop the final
extension when the last dot is neither leading nor trailing. -/
def stemOf (nm : String) : String :=
  match lastDotIdx nm.data with
  | some i => if 0 < i && i + 1 < nm.data.length then String.mk (nm.data.take i) else nm
  | none => nm

/-- `get_classname`: the stem of the file path (`path.stem`). -/
def get_classname (path : String) : String := stemOf (lastComponent path)

/-- Python `repr` of a bool, as interpolated into the C1 detail string. -/
def pyBool (b : Bool) : String := if b then "True" else "False"

/- ========================= CONFIG ========================= -/

/-- C3 forbidden-import patterns (all escaped literals in the source). -/
def DOMAIN_FORBIDDEN_IMPORTS : List String :=
  ["jakarta.persistence.", "javax.persistence.", "org.springframework.",
   "org.hibernate.", "java.sql.", ".infrastructure."]

/-- C4 forbidden-import patterns. -/
def APP_FORBIDDEN_IMPORTS : List String := [".infrastructure."]

/-- C5 required suffixes for adapter classes. -/
def ADAPTER_SUFFIXES : List String :=
  ["Adapter", "Controller", "Repository", "Client",
   "Publisher", "Listener", "Mapper", "Config"]

/-- C5 exclusions for DTO-like types under adapter packages. -/
def DTO_LIKE_SUFFIXES : List String :=
  ["Dto", "DTO", "Request", "Response", "Command", "Query", "Payload"]

/-- C7 exclusions for non-service types in service packages. -/
def C7_EXCLUDED_SUFFIXES : List String :=
  ["Policy", "Validator", "Exception", "Test", "IT", "Spec"]

/-- C7 scope toggle: only enforce in application service packages. -/
def C7_ENFORCE_ONLY_APPLICATION_SERVICES : Bool := true

/-- C7 allowed BIAN-style service suffixes. -/
def SERVICE_SUFFIXES : List String :=
  ["Service", "ServiceDomain", "Saga", "Orchestrator"]

/-- C8 expected OpenAPI contract files. -/
def EXPECTED_OPENAPI_FILES : List String :=
  ["open-finance-context.yaml", "payment-context.yaml", "loan-context.yaml",
   "risk-context.yaml", "customer-context.yaml", "compliance-context.yaml"]

/-- C9 forbidden persistence imports in shared-kernel / common-domain. -/
def SHARED_KERNEL_FORBIDDEN : List String :=
  ["jakarta.persistence.", "javax.persistence.", "org.springframework.data.",
   "org.hibernate.", "java.sql."]

/-- The literal alternatives of the C2 regex
`(persistence|jpa|hibernate|jdbc|sql)`, searched in lowered imports. -/
def C2_PERSISTENCE_MARKERS : List String :=
  ["persistence", "jpa", "hibernate", "jdbc", "sql"]

/-- The bounded-context package map of `check_c10`, in the dict's
insertion (hence iteration) order. -/
def ctx_map : List (String × List String) :=
  [("openfinance", ["com.enterprise.openfinance", "com.bank.openfinance"]),
   ("payment", ["com.bank.payment"]),
   ("loan", ["com.bank.loan"]),
   ("risk", ["com.amanahfi.risk", "com.bank.risk"]),
   ("customer", ["com.bank.customer"]),
   ("compliance", ["com.amanahfi.compliance", "com.bank.compliance"])]

/- ========================= CLASSIFIER ========================= -/

/-- `is_domain_package`. -/
def is_domain_package (pkg : String) : Bool :=
  hasSubstr pkg ".domain." || strEndsWith pkg ".domain"

/-- `is_application_package`. -/
def is_application_package (pkg : String) : Bool :=
  hasSubstr pkg ".application." || strEndsWith pkg ".application"

/-- `is_adapter_package`. -/
def is_adapter_package (pkg : String) : Bool :=
  hasSubstr pkg ".infrastructure.adapter." || hasSubstr pkg ".infrastructure.adapter"

/-- `is_test_path`. -/
def is_test_path (path : String) : Bool :=
  let p := normPath path
  hasSubstr p "/src/test/" || strEndsWith p "test.java" || hasSubstr p "/test/"

/-- `is_dto_package`. -/
def is_dto_package (pkg : String) : Bool :=
  hasSubstr pkg ".dto." || strEndsWith pkg ".dto" ||
    hasSubstr pkg ".model." || strEndsWith pkg ".model"

/-- `is_dto_like_classname`. -/
def is_dto_like_classname (classname : String) : Bool :=
  DTO_LIKE_SUFFIXES.any fun s => strEndsWith classname s

/-- `is_excluded_c7_classname`. -/
def is_excluded_c7_classname (classname : String) : Bool :=
  C7_EXCLUDED_SUFFIXES.any fun s => strEndsWith classname s

/-- `is_application_service_package`. -/
def is_application_service_package (pkg : String) : Bool :=
  hasSubstr pkg ".application.service" || strEndsWith pkg ".application.service"

/-- `is_domain_event_package`. -/
def is_domain_event_package (pkg : String) : Bool :=
  hasSubstr pkg ".domain.event." || hasSubstr pkg ".domain.event" ||
    hasSubstr pkg ".domain.events." || hasSubstr pkg ".domain.events"

/-- `is_service_package`. -/
def is_service_package (pkg : String) : Bool :=
  hasSubstr pkg ".application.service" || hasSubstr pkg ".domain.service" ||
    strEndsWith pkg ".service"

/-- `is_shared_kernel`. -/
def is_shared_kernel (path : String) : Bool :=
  let p := normPath path
  hasSubstr p "shared-kernel" || hasSubstr p "shared_kernel" ||
    hasSubstr p "common-domain" || hasSubstr p "common_domain"

/- ========================= DATA MODEL ========================= -/

/-- One scanned source file: path plus the lexically extracted facts
(`get_package` result, possibly empty, and `get_imports` result in
declaration order). -/
structure JavaFile where
  path : String
  pkg : String
  imports : List String
deriving DecidableEq

/-- The input tree of one run: the ordered `find_java_files` result, the
directory entries (as full part lists) found by `rglob` under the UC03
infrastructure subtree, and the state of the `api/openapi` directory. -/
structure RepoTree where
  root : String
  javaFiles : List JavaFile
  infraDirs : List (List String)
  openapiDirExists : Bool
  openapiYamlNames : List String
deriving DecidableEq

/-- One violation row: fields `constraint_id`, `file`, `issue`. -/
structure Violation where
  constraint_id : String
  file : String
  issue : String
deriving DecidableEq

/-- One summary entry: fields `constraint`, `method`, `compliant`,
`detail`. -/
structure CResult where
  constraint : String
  method : String
  compliant : Bool
  detail : String
deriving DecidableEq

/-- True iff some pattern of `pats` occurs in `imp` (the inner
pattern loop with `break`: at most one violation per import). -/
def matchesAny (imp : String) (pats : List String) : Bool :=
  pats.any fun p => hasSubstr imp p

/- ========================= CHECKS ========================= -/

/-- C1 `audit_pkg` flag: some scanned directory has `uc03` among its
lowered parts and is named `audit`. -/
def c1_audit_flag (t : RepoTree) : Bool :=
  t.infraDirs.any fun d =>
    (d.map String.toLower).contains "uc03" && ((d.getLastD "").toLower == "audit")

/-- C1 `cache_pkg` flag. -/
def c1_cache_flag (t : RepoTree) : Bool :=
  t.infraDirs.any fun d =>
    (d.map String.toLower).contains "uc03" && ((d.getLastD "").toLower == "cache")

/-- C1 `matching_pkg` flag (computed by the source, not used further). -/
def c1_matching_flag (t : RepoTree) : Bool :=
  t.infraDirs.any fun d =>
    (d.map String.toLower).contains "uc03" && ((d.getLastD "").toLower == "matching")

/-- `c1_compliant = audit_pkg and cache_pkg`. -/
def c1_compliant (t : RepoTree) : Bool := c1_audit_flag t && c1_cache_flag t

/-- The C1 summary entry of `check_c1_c2`. -/
def c1_result (t : RepoTree) : CResult :=
  ⟨"Stateless API layer: audit persistence separated from runtime",
   "Package separation check (UC03 audit vs cache packages)",
   c1_compliant t,
   "audit_pkg=" ++ pyBool (c1_audit_flag t) ++ ", cache_pkg=" ++ pyBool (c1_cache_flag t)⟩

/-- The C1 violations of `check_c1_c2`: one symbolic-location violation
exactly when C1 is non-compliant. -/
def c1_viols (t : RepoTree) : List Violation :=
  if c1_compliant t then []
  else [⟨"C1", "open-finance-context/open-finance-infrastructure/.../uc03",
        "Expected separate audit and cache packages under UC03 infrastructure"⟩]

/-- The C2 violations one file contributes in `check_c1_c2`. -/
def check_c2_file (jf : JavaFile) : List Violation :=
  let p := normPath jf.path
  if hasSubstr p "uc03" && hasSubstr p "matching" then
    jf.imports.flatMap fun imp =>
      if matchesAny imp.toLower C2_PERSISTENCE_MARKERS then
        [⟨"C2", jf.path, "Matching package imports persistence: " ++ imp⟩]
      else []
  else []

/-- All C2 violations, in file-enumeration order. -/
def c2_viols (t : RepoTree) : List Violation :=
  t.javaFiles.flatMap check_c2_file

/-- The C2 summary entry of `check_c1_c2`. -/
def c2_result (t : RepoTree) : CResult :=
  ⟨"Fuzzy matching index isolated from transactional systems",
   "Import scan: UC03 matching package must not import persistence",
   (c2_viols t).length == 0,
   toString (c2_viols t).length ++ " violation(s) found"⟩

/-- The C3 violations one file contributes in `check_c3`. -/
def check_c3_file (jf : JavaFile) : List Violation :=
  if is_domain_package jf.pkg then
    (jf.imports.filter fun imp => matchesAny imp DOMAIN_FORBIDDEN_IMPORTS).map fun imp =>
      ⟨"C3", jf.path, "Domain imports forbidden dependency: " ++ imp⟩
  else []

/-- All C3 violations, in file-enumeration order. -/
def c3_viols (t : RepoTree) : List Violation :=
  t.javaFiles.flatMap check_c3_file

/-- The C3 summary entry. -/
def c3_result (t : RepoTree) : CResult :=
  ⟨"Domain layer must be framework/infrastructure independent",
   "Import scan: forbidden imports in *.domain.* packages",
   (c3_viols t).length == 0,
   toString (c3_viols t).length ++ " violation(s) found"⟩

/-- The C4 violations one file contributes in `check_c4`. -/
def check_c4_file (jf : JavaFile) : List Violation :=
  if is_application_package jf.pkg then
    (jf.imports.filter fun imp => matchesAny imp APP_FORBIDDEN_IMPORTS).map fun imp =>
      ⟨"C4", jf.path, "Application imports infrastructure: " ++ imp⟩
  else []

/-- All C4 violations. -/
def c4_viols (t : RepoTree) : List Violation :=
  t.javaFiles.flatMap check_c4_file

/-- The C4 summary entry. -/
def c4_result (t : RepoTree) : CResult :=
  ⟨"Application layer depends on domain ports, not infrastructure adapters",
   "Import scan: *.infrastructure.* forbidden in *.application.* packages",
   (c4_viols t).length == 0,
   toString (c4_viols t).length ++ " violation(s) found"⟩

/-- The C5 violations one file contributes in `check_c5`. -/
def check_c5_file (jf : JavaFile) : List Violation :=
  if is_test_path jf.path then []
  else if is_adapter_package jf.pkg then
    let classname := get_classname jf.path
    if is_dto_package jf.pkg || is_dto_like_classname classname then []
    else if ADAPTER_SUFFIXES.any (fun s => strEndsWith classname s) then []
    else [⟨"C5", jf.path,
          "Adapter class '" ++ classname ++ "' does not end with required suffix"⟩]
  else []

/-- All C5 violations. -/
def c5_viols (t : RepoTree) : List Violation :=
  t.javaFiles.flatMap check_c5_file

/-- The C5 summary entry. -/
def c5_result (t : RepoTree) : CResult :=
  ⟨"Infrastructure adapters explicitly named and isolated",
   "Naming check: classes in *.infrastructure.adapter.* must use allowed suffixes",
   (c5_viols t).length == 0,
   toString (c5_viols t).length ++ " violation(s) found"⟩

/-- The C6 violations one file contributes in `check_c6`. -/
def check_c6_file (jf : JavaFile) : List Violation :=
  if is_domain_event_package jf.pkg then
    let classname := get_classname jf.path
    if strEndsWith classname "Event" then []
    else [⟨"C6", jf.path,
          "Domain event class '" ++ classname ++ "' does not end with 'Event'"⟩]
  else []

/-- All C6 violations. -/
def c6_viols (t : RepoTree) : List Violation :=
  t.javaFiles.flatMap check_c6_file

/-- The C6 summary entry. -/
def c6_result (t : RepoTree) : CResult :=
  ⟨"Domain events use explicit event naming (Event suffix)",
   "Naming check: classes in *.domain.event(s).* must end with 'Event'",
   (c6_viols t).length == 0,
   toString (c6_viols t).length ++ " violation(s) found"⟩

/-- The C7 violations one file contributes in `check_c7`. -/
def check_c7_file (jf : JavaFile) : List Violation :=
  if is_test_path jf.path then []
  else if (if C7_ENFORCE_ONLY_APPLICATION_SERVICES
           then is_application_service_package jf.pkg
           else is_service_package jf.pkg) then
    let classname := get_classname jf.path
    if is_excluded_c7_classname classname then []
    else if SERVICE_SUFFIXES.any (fun s => strEndsWith classname s) then []
    else [⟨"C7", jf.path,
          "Service class '" ++ classname ++ "' does not end with BIAN suffix"⟩]
  else []

/-- All C7 violations. -/
def c7_viols (t : RepoTree) : List Violation :=
  t.javaFiles.flatMap check_c7_file

/-- The C7 summary entry. -/
def c7_result (t : RepoTree) : CResult :=
  ⟨"Banking service naming bounded-context aligned (BIAN suffixes)",
   "Naming check: classes in service packages must use BIAN suffixes",
   (c7_viols t).length == 0,
   toString (c7_viols t).length ++ " violation(s) found"⟩

/-- The `existing` set of `check_c8`: names of the `*.yaml` files in
`api/openapi` when that directory exists, else empty. -/
def c8_existing (t : RepoTree) : List String :=
  if t.openapiDirExists then t.openapiYamlNames else []

/-- The C8 violations: one per expected contract file absent from
`existing`, naming the missing file. -/
def c8_viols (t : RepoTree) : List Violation :=
  EXPECTED_OPENAPI_FILES.flatMap fun expected =>
    if (c8_existing t).contains expected then []
    else [⟨"C8", t.root ++ "/api/openapi/" ++ expected,
          "Missing OpenAPI contract file: " ++ expected⟩]

/-- The C8 summary entry. -/
def c8_result (t : RepoTree) : CResult :=
  ⟨"Each bounded context service must publish an OpenAPI contract",
   "File existence check: api/openapi/<context>.yaml",
   (c8_viols t).length == 0,
   toString (c8_existing t).length ++ " files found; " ++
     toString (c8_viols t).length ++ " missing"⟩

/-- The C9 violations one file contributes in `check_c9`. -/
def check_c9_file (jf : JavaFile) : List Violation :=
  if is_shared_kernel jf.path then
    jf.imports.flatMap fun imp =>
      if matchesAny imp SHARED_KERNEL_FORBIDDEN then
        [⟨"C9", jf.path, "Shared kernel imports persistence: " ++ imp⟩]
      else []
  else []

/-- All C9 violations. -/
def c9_viols (t : RepoTree) : List Violation :=
  t.javaFiles.flatMap check_c9_file

/-- The C9 summary entry. -/
def c9_result (t : RepoTree) : CResult :=
  ⟨"Shared libraries remain code-level only (no shared persistence)",
   "Import scan: persistence imports forbidden in shared-kernel/common-domain",
   (c9_viols t).length == 0,
   toString (c9_viols t).length ++ " violation(s) found"⟩

/-- `own_ctx` determination of `check_c10`: the first context (in map
order) one of whose package prefixes starts the file's package. -/
def own_context (pkg : String) : Option String :=
  (ctx_map.find? fun cp => cp.2.any fun p => strStartsWith pkg p).map (·.1)

/-- The C10 violations a single import contributes: for every other
context and prefix that starts the import, one violation unless that
same import contains `.port.` or `.api.`. -/
def c10_import_viols (ownCtx fpath imp : String) : List Violation :=
  ctx_map.flatMap fun cp =>
    if cp.1 == ownCtx then []
    else cp.2.flatMap fun p =>
      if strStartsWith imp p then
        if hasSubstr imp ".port." || hasSubstr imp ".api." then []
        else [⟨"C10", fpath,
              "Direct cross-context import from '" ++ cp.1 ++ "': " ++ imp⟩]
      else []

/-- The C10 violations one file contributes in `check_c10`. -/
def check_c10_file (jf : JavaFile) : List Violation :=
  if jf.pkg == "" then []
  else
    match own_context jf.pkg with
    | none => []
    | some ownCtx => jf.imports.flatMap (c10_import_viols ownCtx jf.path)

/-- All C10 violations. -/
def c10_viols (t : RepoTree) : List Violation :=
  t.javaFiles.flatMap check_c10_file

/-- The C10 summary entry. -/
def c10_result (t : RepoTree) : CResult :=
  ⟨"Cross-context access via explicit OpenAPI contracts and event topics",
   "Import scan: direct cross-context imports (non-port) flagged as violations",
   (c10_viols t).length == 0,
   toString (c10_viols t).length ++ " violation(s) found"⟩

/- ========================= AGGREGATION (main) ========================= -/

/-- `all_results` after the check loop of `main`: dict insertion order
is the check declaration order C1..C10. -/
def main_results (t : RepoTree) : List (String × CResult) :=
  [("C1", c1_result t), ("C2", c2_result t), ("C3", c3_result t),
   ("C4", c4_result t), ("C5", c5_result t), ("C6", c6_result t),
   ("C7", c7_result t), ("C8", c8_result t), ("C9", c9_result t),
   ("C10", c10_result t)]

/-- `all_violations` after the check loop: the per-check lists
concatenated in check declaration order. -/
def all_violations (t : RepoTree) : List Violation :=
  c1_viols t ++ c2_viols t ++ c3_viols t ++ c4_viols t ++ c5_viols t ++
    c6_viols t ++ c7_viols t ++ c8_viols t ++ c9_viols t ++ c10_viols t

/-- Insertion step of the key sort modelling Python's `sorted`. -/
def insertByKey (x : String × CResult) : List (String × CResult) → List (String × CResult)
  | [] => [x]
  | y :: ys => if strLeB x.1 y.1 then x :: y :: ys else y :: insertByKey x ys

/-- Key sort modelling `sorted(all_results.keys())` (keys are distinct,
so any comparison sort yields the same row order). -/
def sortByKey : List (String × CResult) → List (String × CResult)
  | [] => []
  | x :: xs => insertByKey x (sortByKey xs)

/-- The emitted summary rows: one per constraint, in
`sorted(all_results.keys())` order. -/
def summary_rows (t : RepoTree) : List (String × CResult) :=
  sortByKey (main_results t)

/-- The constraint ids in check declaration order. -/
def DECL_IDS : List String :=
  ["C1", "C2", "C3", "C4", "C5", "C6", "C7", "C8", "C9", "C10"]

/-- Position of a constraint id in the declaration order. -/
def declIndex (c : String) : Nat := DECL_IDS.findIdx (fun d => d == c)

/-- The canonical violation order asserted by the specification:
by constraint id in declaration order, then by file path. -/
def violLeB (v w : Violation) : Bool :=
  let i := declIndex v.constraint_id
  let j := declIndex w.constraint_id
  decide (i < j) || ((i == j) && strLeB v.file w.file)

/-- Whether a list is sorted under a boolean comparison. -/
def isSortedByB (le : α → α → Bool) : List α → Bool
  | [] => true
  | [_] => true
  | x :: y :: r => le x y && isSortedByB le (y :: r)

/- ========================= read_file (encoding chain) ========================= -/

/-- Continuation-byte test for strict UTF-8 decoding. -/
def utf8_cont (b : Nat) : Bool := decide (128 ≤ b) && decide (b ≤ 191)

/-- Strict UTF-8 decoding of a byte sequence to code points, rejecting
truncated sequences, stray continuation bytes, overlong forms,
surrogates and values beyond U+10FFFF — the first decoding attempt of
`read_file` (`encoding="utf-8", errors="strict"`). -/
def utf8_decode : List Nat → Option (List Nat)
  | [] => some []
  | b :: bs =>
    if b ≤ 127 then (utf8_decode bs).map fun cs => b :: cs
    else if b < 194 then none
    else if b ≤ 223 then
      match bs with
      | b2 :: bs2 =>
        if utf8_cont b2 then (utf8_decode bs2).map fun cs => ((b - 192) * 64 + (b2 - 128)) :: cs
        else none
      | [] => none
    else if b ≤ 239 then
      match bs with
      | b2 :: b3 :: bs3 =>
        if utf8_cont b2 && utf8_cont b3 then
          if decide (2048 ≤ (b - 224) * 4096 + (b2 - 128) * 64 + (b3 - 128)) &&
             !(decide (55296 ≤ (b - 224) * 4096 + (b2 - 128) * 64 + (b3 - 128)) &&
               decide ((b - 224) * 4096 + (b2 - 128) * 64 + (b3 - 128) ≤ 57343)) then
            (utf8_decode bs3).map fun cs => ((b - 224) * 4096 + (b2 - 128) * 64 + (b3 - 128)) :: cs
          else none
        else none
      | _ => none
    else if b ≤ 244 then
      match bs with
      | b2 :: b3 :: b4 :: bs4 =>
        if utf8_cont b2 && utf8_cont b3 && utf8_cont b4 then
          if decide (65536 ≤ (b - 240) * 262144 + (b2 - 128) * 4096 + (b3 - 128) * 64 + (b4 - 128)) &&
             decide ((b - 240) * 262144 + (b2 - 128) * 4096 + (b3 - 128) * 64 + (b4 - 128) ≤ 1114111) then
            (utf8_decode bs4).map fun cs =>
              ((b - 240) * 262144 + (b2 - 128) * 4096 + (b3 - 128) * 64 + (b4 - 128)) :: cs
          else none
        else none
      | _ => none
    else none
termination_by l => l.length

/-- Second attempt of `read_file`: `utf-8-sig` strips a leading BOM
when present, then decodes as strict UTF-8. -/
def utf8_sig_decode : List Nat → Option (List Nat)
  | 239 :: 187 :: 191 :: rest => utf8_decode rest
  | bs => utf8_decode bs

/-- Third attempt of `read_file`: strict `latin-1` maps every byte
0..255 to the code point of the same value and fails only on a value
that is not a byte at all. -/
def latin1_decode (bs : List Nat) : Option (List Nat) :=
  if bs.all fun b => decide (b < 256) then some bs else none

/-- Final lossy fallback of `read_file` (`errors="ignore"`): decode
UTF-8, skipping bytes on which strict decoding would fail. -/
def utf8_decode_ignore : List Nat → List Nat
  | [] => []
  | b :: bs =>
    if b ≤ 127 then b :: utf8_decode_ignore bs
    else if b < 194 then utf8_decode_ignore bs
    else if b ≤ 223 then
      match bs with
      | b2 :: bs2 =>
        if utf8_cont b2 then ((b - 192) * 64 + (b2 - 128)) :: utf8_decode_ignore bs2
        else utf8_decode_ignore (b2 :: bs2)
      | [] => []
    else if b ≤ 239 then
      match bs with
      | b2 :: b3 :: bs3 =>
        if utf8_cont b2 && utf8_cont b3 then
          ((b - 224) * 4096 + (b2 - 128) * 64 + (b3 - 128)) :: utf8_decode_ignore bs3
        else utf8_decode_ignore (b2 :: b3 :: bs3)
      | _ => []
    else if b ≤ 244 then
      match bs with
      | b2 :: b3 :: b4 :: bs4 =>
        if utf8_cont b2 && utf8_cont b3 && utf8_cont b4 then
          ((b - 240) * 262144 + (b2 - 128) * 4096 + (b3 - 128) * 64 + (b4 - 128)) ::
            utf8_decode_ignore bs4
        else utf8_decode_ignore (b2 :: b3 :: b4 :: bs4)
      | _ => []
    else utf8_decode_ignore bs
termination_by l => l.length

/-- `read_file`: try strict utf-8, then utf-8-sig, then latin-1; fall
back to lossy utf-8 only if all strict attempts fail.  Returns the
decoded code points and whether the lossy fallback was taken. -/
def read_file (bs : List Nat) : List Nat × Bool :=
  match utf8_decode bs with
  | some cs => (cs, false)
  | none =>
    match utf8_sig_decode bs with
    | some cs => (cs, false)
    | none =>
      match latin1_decode bs with
      | some cs => (cs, false)
      | none => (utf8_decode_ignore bs, true)

/- ========================= EXAMPLE INPUTS ========================= -/

/-- A run over an empty tree with no contracts directory. -/
def exEmptyTree : RepoTree := ⟨"/r", [], [], false, []⟩

/-- Two domain files with forbidden imports, enumerated with the
lexicographically larger path first. -/
def exTwoDomainFiles : RepoTree :=
  ⟨"/r",
   [⟨"/r/zzz.java", "a.domain", ["org.springframework.Z"]⟩,
    ⟨"/r/aaa.java", "a.domain", ["org.springframework.A"]⟩],
   [], true, EXPECTED_OPENAPI_FILES⟩

/-- A payment-context file directly importing a loan-context class. -/
def exPayLoan : JavaFile :=
  ⟨"/r/payment/src/main/java/com/bank/payment/app/A.java",
   "com.bank.payment.app", ["com.bank.loan.LoanAccount"]⟩

/-- A payment-context file importing a loan-context port. -/
def exPayPort : JavaFile :=
  ⟨"/r/payment/src/main/java/com/bank/payment/app/B.java",
   "com.bank.payment.app", ["com.bank.loan.port.LoanPort"]⟩

/-- A payment-context file whose import's final segment is `port`. -/
def exPayPortBare : JavaFile :=
  ⟨"/r/payment/src/main/java/com/bank/payment/app/C.java",
   "com.bank.payment.app", ["com.bank.loan.port"]⟩

/-- A non-test adapter-package file named `FooAdapter`. -/
def exFooAdapter : JavaFile :=
  ⟨"/r/src/main/java/com/x/infrastructure/adapter/pay/FooAdapter.java",
   "com.x.infrastructure.adapter.pay", []⟩

/-- A domain-package file importing a web-framework class. -/
def exDomainSpring : JavaFile :=
  ⟨"/r/src/main/java/x/y/domain/z/Acct.java", "x.y.domain.z",
   ["org.springframework.Foo"]⟩

/-- The same file importing only a collection type. -/
def exDomainUtil : JavaFile :=
  ⟨"/r/src/main/java/x/y/domain/z/Acct.java", "x.y.domain.z", ["java.util.List"]⟩

/-- A domain-package file whose single import matches two forbidden
patterns at once. -/
def exDomainMulti : JavaFile :=
  ⟨"/r/src/main/java/x/y/domain/z/Acct.java", "x.y.domain.z",
   ["org.springframework.infrastructure.Foo"]⟩

/-- An adapter-package file named `Manifest` (not a test name). -/
def exManifest : JavaFile :=
  ⟨"/r/src/main/java/com/x/infrastructure/adapter/pay/Manifest.java",
   "com.x.infrastructure.adapter.pay", []⟩

/-- An adapter-package file named `Latest`, whose lowered path ends in
`test.java`. -/
def exLatest : JavaFile :=
  ⟨"/r/src/main/java/com/x/infrastructure/adapter/pay/Latest.java",
   "com.x.infrastructure.adapter.pay", []⟩

/-- A file record whose package declaration could not be extracted. -/
def exNoPkg : JavaFile :=
  ⟨"/r/src/main/java/com/x/Garbled.java", "",
   ["org.springframework.Foo", "com.bank.loan.LoanAccount"]⟩

/- ========================= HELPER LEMMAS ========================= -/

theorem mem_ite_nil_left {α} {c : Prop} [Decidable c] {l : List α} {v : α}
    (h : v ∈ if c then [] else l) : v ∈ l := by
  split at h
  · exact absurd h (List.not_mem_nil v)
  · exact h

theorem mem_ite_nil_right {α} {c : Prop} [Decidable c] {l : List α} {v : α}
    (h : v ∈ if c then l else []) : v ∈ l := by
  split at h
  · exact h
  · exact absurd h (List.not_mem_nil v)

theorem check_c2_file_id (jf : JavaFile) :
    ∀ v ∈ check_c2_file jf, v.constraint_id = "C2" := by
  intro v hv
  simp only [check_c2_file] at hv
  have hv := mem_ite_nil_right hv
  rw [List.mem_flatMap] at hv
  obtain ⟨imp, _, hv⟩ := hv
  have hv := mem_ite_nil_right hv
  rw [List.mem_singleton] at hv
  subst hv
  rfl

theorem check_c3_file_id (jf : JavaFile) :
    ∀ v ∈ check_c3_file jf, v.constraint_id = "C3" := by
  intro v hv
  simp only [check_c3_file] at hv
  have hv := mem_ite_nil_right hv
  rw [List.mem_map] at hv
  obtain ⟨imp, _, rfl⟩ := hv
  rfl

theorem check_c4_file_id (jf : JavaFile) :
    ∀ v ∈ check_c4_file jf, v.constraint_id = "C4" := by
  intro v hv
  simp only [check_c4_file] at hv
  have hv := mem_ite_nil_right hv
  rw [List.mem_map] at hv
  obtain ⟨imp, _, rfl⟩ := hv
  rfl

theorem check_c5_file_id (jf : JavaFile) :
    ∀ v ∈ check_c5_file jf, v.constraint_id = "C5" := by
  intro v hv
  simp only [check_c5_file] at hv
  have hv := mem_ite_nil_left hv
  have hv := mem_ite_nil_right hv
  have hv := mem_ite_nil_left hv
  have hv := mem_ite_nil_left hv
  rw [List.mem_singleton] at hv
  subst hv
  rfl

theorem check_c6_file_id (jf : JavaFile) :
    ∀ v ∈ check_c6_file jf, v.constraint_id = "C6" := by
  intro v hv
  simp only [check_c6_file] at hv
  have hv := mem_ite_nil_right hv
  have hv := mem_ite_nil_left hv
  rw [List.mem_singleton] at hv
  subst hv
  rfl

theorem check_c7_file_id (jf : JavaFile) :
    ∀ v ∈ check_c7_file jf, v.constraint_id = "C7" := by
  intro v hv
  simp only [check_c7_file] at hv
  have hv := mem_ite_nil_left hv
  have hv := mem_ite_nil_right hv
  have hv := mem_ite_nil_left hv
  have hv := mem_ite_nil_left hv
  rw [List.mem_singleton] at hv
  subst hv
  rfl

theorem check_c9_file_id (jf : JavaFile) :
    ∀ v ∈ check_c9_file jf, v.constraint_id = "C9" := by
  intro v hv
  simp only [check_c9_file] at hv
  have hv := mem_ite_nil_right hv
  rw [List.mem_flatMap] at hv
  obtain ⟨imp, _, hv⟩ := hv
  have hv := mem_ite_nil_right hv
  rw [List.mem_singleton] at hv
  subst hv
  rfl

theorem c10_import_viols_id (ownCtx fpath imp : String) :
    ∀ v ∈ c10_import_viols ownCtx fpath imp, v.constraint_id = "C10" := by
  intro v hv
  simp only [c10_import_viols] at hv
  rw [List.mem_flatMap] at hv
  obtain ⟨cp, _, hv⟩ := hv
  have hv := mem_ite_nil_left hv
  rw [List.mem_flatMap] at hv
  obtain ⟨p, _, hv⟩ := hv
  have hv := mem_ite_nil_right hv
  have hv := mem_ite_nil_left hv
  rw [List.mem_singleton] at hv
  subst hv
  rfl

theorem check_c10_file_id (jf : JavaFile) :
    ∀ v ∈ check_c10_file jf, v.constraint_id = "C10" := by
  intro v hv
  simp only [check_c10_file] at hv
  have hv := mem_ite_nil_left hv
  rcases ho : own_context jf.pkg with _ | ownCtx
  · rw [ho] at hv
    exact absurd hv (List.not_mem_nil v)
  · rw [ho] at hv
    rw [List.mem_flatMap] at hv
    obtain ⟨imp, _, hv⟩ := hv
    exact c10_import_viols_id ownCtx jf.path imp v hv

theorem flatMap_viols_id {α} {f : α → List Violation} {c : String}
    (hf : ∀ a v, v ∈ f a → v.constraint_id = c) (l : List α) :
    ∀ v ∈ l.flatMap f, v.constraint_id = c := by
  intro v hv
  rw [List.mem_flatMap] at hv
  obtain ⟨a, _, hv⟩ := hv
  exact hf a v hv

theorem c1_viols_id (t : RepoTree) : ∀ v ∈ c1_viols t, v.constraint_id = "C1" := by
  intro v hv
  simp only [c1_viols] at hv
  have hv := mem_ite_nil_left hv
  rw [List.mem_singleton] at hv
  subst hv
  rfl

theorem c2_viols_id (t : RepoTree) : ∀ v ∈ c2_viols t, v.constraint_id = "C2" :=
  flatMap_viols_id check_c2_file_id t.javaFiles

theorem c3_viols_id (t : RepoTree) : ∀ v ∈ c3_viols t, v.constraint_id = "C3" :=
  flatMap_viols_id check_c3_file_id t.javaFiles

theorem c4_viols_id (t : RepoTree) : ∀ v ∈ c4_viols t, v.constraint_id = "C4" :=
  flatMap_viols_id check_c4_file_id t.javaFiles

theorem c5_viols_id (t : RepoTree) : ∀ v ∈ c5_viols t, v.constraint_id = "C5" :=
  flatMap_viols_id check_c5_file_id t.javaFiles

theorem c6_viols_id (t : RepoTree) : ∀ v ∈ c6_viols t, v.constraint_id = "C6" :=
  flatMap_viols_id check_c6_file_id t.javaFiles

theorem c7_viols_id (t : RepoTree) : ∀ v ∈ c7_viols t, v.constraint_id = "C7" :=
  flatMap_viols_id check_c7_file_id t.javaFiles

theorem c8_viols_id (t : RepoTree) : ∀ v ∈ c8_viols t, v.constraint_id = "C8" := by
  intro v hv
  simp only [c8_viols] at hv
  rw [List.mem_flatMap] at hv
  obtain ⟨e, _, hv⟩ := hv
  have hv := mem_ite_nil_left hv
  rw [List.mem_singleton] at hv
  subst hv
  rfl

theorem c9_viols_id (t : RepoTree) : ∀ v ∈ c9_viols t, v.constraint_id = "C9" :=
  flatMap_viols_id check_c9_file_id t.javaFiles

theorem c10_viols_id (t : RepoTree) : ∀ v ∈ c10_viols t, v.constraint_id = "C10" :=
  flatMap_viols_id check_c10_file_id t.javaFiles

theorem filter_id_ne {l : List Violation} {d c : String}
    (h : ∀ v ∈ l, v.constraint_id = d) (hne : d ≠ c) :
    l.filter (fun v => v.constraint_id == c) = [] := by
  rw [List.filter_eq_nil_iff]
  intro v hv hb
  exact hne (by rwa [h v hv, beq_iff_eq] at hb)

theorem filter_id_self {l : List Violation} {c : String}
    (h : ∀ v ∈ l, v.constraint_id = c) :
    l.filter (fun v => v.constraint_id == c) = l := by
  rw [List.filter_eq_self]
  intro v hv
  rw [h v hv]
  exact beq_self_eq_true c

theorem all_violations_filter_c1 (t : RepoTree) :
    (all_violations t).filter (fun v => v.constraint_id == "C1") = c1_viols t := by
  unfold all_violations
  simp only [List.filter_append]
  rw [filter_id_self (c1_viols_id t), filter_id_ne (c2_viols_id t) (by decide),
    filter_id_ne (c3_viols_id t) (by decide), filter_id_ne (c4_viols_id t) (by decide),
    filter_id_ne (c5_viols_id t) (by decide), filter_id_ne (c6_viols_id t) (by decide),
    filter_id_ne (c7_viols_id t) (by decide), filter_id_ne (c8_viols_id t) (by decide),
    filter_id_ne (c9_viols_id t) (by decide), filter_id_ne (c10_viols_id t) (by decide)]
  simp

theorem all_violations_filter_c2 (t : RepoTree) :
    (all_violations t).filter (fun v => v.constraint_id == "C2") = c2_viols t := by
  unfold all_violations
  simp only [List.filter_append]
  rw [filter_id_ne (c1_viols_id t) (by decide), filter_id_self (c2_viols_id t),
    filter_id_ne (c3_viols_id t) (by decide), filter_id_ne (c4_viols_id t) (by decide),
    filter_id_ne (c5_viols_id t) (by decide), filter_id_ne (c6_viols_id t) (by decide),
    filter_id_ne (c7_viols_id t) (by decide), filter_id_ne (c8_viols_id t) (by decide),
    filter_id_ne (c9_viols_id t) (by decide), filter_id_ne (c10_viols_id t) (by decide)]
  simp

theorem all_violations_filter_c3 (t : RepoTree) :
    (all_violations t).filter (fun v => v.constraint_id == "C3") = c3_viols t := by
  unfold all_violations
  simp only [List.filter_append]
  rw [filter_id_ne (c1_viols_id t) (by decide), filter_id_ne (c2_viols_id t) (by decide),
    filter_id_self (c3_viols_id t), filter_id_ne (c4_viols_id t) (by decide),
    filter_id_ne (c5_viols_id t) (by decide), filter_id_ne (c6_viols_id t) (by decide),
    filter_id_ne (c7_viols_id t) (by decide), filter_id_ne (c8_viols_id t) (by decide),
    filter_id_ne (c9_viols_id t) (by decide), filter_id_ne (c10_viols_id t) (by decide)]
  simp

theorem all_violations_filter_c4 (t : RepoTree) :
    (all_violations t).filter (fun v => v.constraint_id == "C4") = c4_viols t := by
  unfold all_violations
  simp only [List.filter_append]
  rw [filter_id_ne (c1_viols_id t) (by decide), filter_id_ne (c2_viols_id t) (by decide),
    filter_id_ne (c3_viols_id t) (by decide), filter_id_self (c4_viols_id t),
    filter_id_ne (c5_viols_id t) (by decide), filter_id_ne (c6_viols_id t) (by decide),
    filter_id_ne (c7_viols_id t) (by decide), filter_id_ne (c8_viols_id t) (by decide),
    filter_id_ne (c9_viols_id t) (by decide), filter_id_ne (c10_viols_id t) (by decide)]
  simp

theorem all_violations_filter_c5 (t : RepoTree) :
    (all_violations t).filter (fun v => v.constraint_id == "C5") = c5_viols t := by
  unfold all_violations
  simp only [List.filter_append]
  rw [filter_id_ne (c1_viols_id t) (by decide), filter_id_ne (c2_viols_id t) (by decide),
    filter_id_ne (c3_viols_id t) (by decide), filter_id_ne (c4_viols_id t) (by decide),
    filter_id_self (c5_viols_id t), filter_id_ne (c6_viols_id t) (by decide),
    filter_id_ne (c7_viols_id t) (by decide), filter_id_ne (c8_viols_id t) (by decide),
    filter_id_ne (c9_viols_id t) (by decide), filter_id_ne (c10_viols_id t) (by decide)]
  simp

theorem all_violations_filter_c6 (t : RepoTree) :
    (all_violations t).filter (fun v => v.constraint_id == "C6") = c6_viols t := by
  unfold all_violations
  simp only [List.filter_append]
  rw [filter_id_ne (c1_viols_id t) (by decide), filter_id_ne (c2_viols_id t) (by decide),
    filter_id_ne (c3_viols_id t) (by decide), filter_id_ne (c4_viols_id t) (by decide),
    filter_id_ne (c5_viols_id t) (by decide), filter_id_self (c6_viols_id t),
    filter_id_ne (c7_viols_id t) (by decide), filter_id_ne (c8_viols_id t) (by decide),
    filter_id_ne (c9_viols_id t) (by decide), filter_id_ne (c10_viols_id t) (by decide)]
  simp

theorem all_violations_filter_c7 (t : RepoTree) :
    (all_violations t).filter (fun v => v.constraint_id == "C7") = c7_viols t := by
  unfold all_violations
  simp only [List.filter_append]
  rw [filter_id_ne (c1_viols_id t) (by decide), filter_id_ne (c2_viols_id t) (by decide),
    filter_id_ne (c3_viols_id t) (by decide), filter_id_ne (c4_viols_id t) (by decide),
    filter_id_ne (c5_viols_id t) (by decide), filter_id_ne (c6_viols_id t) (by decide),
    filter_id_self (c7_viols_id t), filter_id_ne (c8_viols_id t) (by decide),
    filter_id_ne (c9_viols_id t) (by decide), filter_id_ne (c10_viols_id t) (by decide)]
  simp

theorem all_violations_filter_c8 (t : RepoTree) :
    (all_violations t).filter (fun v => v.constraint_id == "C8") = c8_viols t := by
  unfold all_violations
  simp only [List.filter_append]
  rw [filter_id_ne (c1_viols_id t) (by decide), filter_id_ne (c2_viols_id t) (by decide),
    filter_id_ne (c3_viols_id t) (by decide), filter_id_ne (c4_viols_id t) (by decide),
    filter_id_ne (c5_viols_id t) (by decide), filter_id_ne (c6_viols_id t) (by decide),
    filter_id_ne (c7_viols_id t) (by decide), filter_id_self (c8_viols_id t),
    filter_id_ne (c9_viols_id t) (by decide), filter_id_ne (c10_viols_id t) (by decide)]
  simp

theorem all_violations_filter_c9 (t : RepoTree) :
    (all_violations t).filter (fun v => v.constraint_id == "C9") = c9_viols t := by
  unfold all_violations
  simp only [List.filter_append]
  rw [filter_id_ne (c1_viols_id t) (by decide), filter_id_ne (c2_viols_id t) (by decide),
    filter_id_ne (c3_viols_id t) (by decide), filter_id_ne (c4_viols_id t) (by decide),
    filter_id_ne (c5_viols_id t) (by decide), filter_id_ne (c6_viols_id t) (by decide),
    filter_id_ne (c7_viols_id t) (by decide), filter_id_ne (c8_viols_id t) (by decide),
    filter_id_self (c9_viols_id t), filter_id_ne (c10_viols_id t) (by decide)]
  simp

theorem all_violations_filter_c10 (t : RepoTree) :
    (all_violations t).filter (fun v => v.constraint_id == "C10") = c10_viols t := by
  unfold all_violations
  simp only [List.filter_append]
  rw [filter_id_ne (c1_viols_id t) (by decide), filter_id_ne (c2_viols_id t) (by decide),
    filter_id_ne (c3_viols_id t) (by decide), filter_id_ne (c4_viols_id t) (by decide),
    filter_id_ne (c5_viols_id t) (by decide), filter_id_ne (c6_viols_id t) (by decide),
    filter_id_ne (c7_viols_id t) (by decide), filter_id_ne (c8_viols_id t) (by decide),
    filter_id_ne (c9_viols_id t) (by decide), filter_id_self (c10_viols_id t)]
  simp

/- ========================= CLAIM THEOREMS ========================= -/

/-- Claim C1: for every constraint id `c`, the summary entry for `c`
reports compliant exactly when the produced violation list contains no
violation whose `constraint_id` equals `c`, for every input tree. -/
theorem claim_C1_compliance_invariant (t : RepoTree) (c : String) (r : CResult)
    (h : (main_results t).lookup c = some r) :
    r.compliant = true ↔ (all_violations t).filter (fun v => v.constraint_id == c) = [] := by
  by_cases h1 : c = "C1"
  · subst h1
    simp [main_results, List.lookup] at h
    rw [← h, all_violations_filter_c1]
    simp only [c1_result]
    unfold c1_viols
    cases hc : c1_compliant t <;> simp [hc]
  by_cases h2 : c = "C2"
  · subst h2
    simp [main_results, List.lookup] at h
    rw [← h, all_violations_filter_c2]
    simp [c2_result, beq_iff_eq, List.length_eq_zero]
  by_cases h3 : c = "C3"
  · subst h3
    simp [main_results, List.lookup] at h
    rw [← h, all_violations_filter_c3]
    simp [c3_result, beq_iff_eq, List.length_eq_zero]
  by_cases h4 : c = "C4"
  · subst h4
    simp [main_results, List.lookup] at h
    rw [← h, all_violations_filter_c4]
    simp [c4_result, beq_iff_eq, List.length_eq_zero]
  by_cases h5 : c = "C5"
  · subst h5
    simp [main_results, List.lookup] at h
    rw [← h, all_violations_filter_c5]
    simp [c5_result, beq_iff_eq, List.length_eq_zero]
  by_cases h6 : c = "C6"
  · subst h6
    simp [main_results, List.lookup] at h
    rw [← h, all_violations_filter_c6]
    simp [c6_result, beq_iff_eq, List.length_eq_zero]
  by_cases h7 : c = "C7"
  · subst h7
    simp [main_results, List.lookup] at h
    rw [← h, all_violations_filter_c7]
    simp [c7_result, beq_iff_eq, List.length_eq_zero]
  by_cases h8 : c = "C8"
  · subst h8
    simp [main_results, List.lookup] at h
    rw [← h, all_violations_filter_c8]
    simp [c8_result, beq_iff_eq, List.length_eq_zero]
  by_cases h9 : c = "C9"
  · subst h9
    simp [main_results, List.lookup] at h
    rw [← h, all_violations_filter_c9]
    simp [c9_result, beq_iff_eq, List.length_eq_zero]
  by_cases h10 : c = "C10"
  · subst h10
    simp [main_results, List.lookup] at h
    rw [← h, all_violations_filter_c10]
    simp [c10_result, beq_iff_eq, List.length_eq_zero]
  · exfalso
    have e1 : (c == "C1") = false := beq_eq_false_iff_ne.mpr h1
    have e2 : (c == "C2") = false := beq_eq_false_iff_ne.mpr h2
    have e3 : (c == "C3") = false := beq_eq_false_iff_ne.mpr h3
    have e4 : (c == "C4") = false := beq_eq_false_iff_ne.mpr h4
    have e5 : (c == "C5") = false := beq_eq_false_iff_ne.mpr h5
    have e6 : (c == "C6") = false := beq_eq_false_iff_ne.mpr h6
    have e7 : (c == "C7") = false := beq_eq_false_iff_ne.mpr h7
    have e8 : (c == "C8") = false := beq_eq_false_iff_ne.mpr h8
    have e9 : (c == "C9") = false := beq_eq_false_iff_ne.mpr h9
    have e10 : (c == "C10") = false := beq_eq_false_iff_ne.mpr h10
    simp [main_results, List.lookup, e1, e2, e3, e4, e5, e6, e7, e8, e9, e10] at h

/-- Witness for claim C1 at a concrete run: the empty tree and `c = "C3"`. -/
theorem claim_C1_compliance_invariant_witness :
    (c3_result exEmptyTree).compliant = true ↔
      (all_violations exEmptyTree).filter (fun v => v.constraint_id == "C3") = [] :=
  claim_C1_compliance_invariant exEmptyTree "C3" (c3_result exEmptyTree) (by decide)

/-- Claim C2 counterexample: the summary rows come out in lexicographic
string order of the id (C1, C10, C2, ..., C9), not in declaration order
C1..C10, and the violation list of a concrete run is not sorted by
(declaration-order constraint id, then file path). -/
theorem claim_C2_output_order_counterexample :
    (summary_rows exEmptyTree).map Prod.fst ≠ DECL_IDS ∧
      isSortedByB violLeB (all_violations exTwoDomainFiles) = false := by
  constructor
  · decide
  · decide

/-- Claim C2 as amended: the summary rows are emitted in lexicographic
order of the constraint-id string (C1, C10, C2, ..., C9), and the
violation list is grouped by constraint in check declaration order
C1..C10 (each group kept in file-enumeration order, not sorted by file
path): the list equals its own regrouping by declaration-order id. -/
theorem claim_C2_output_order_amended (t : RepoTree) :
    (summary_rows t).map Prod.fst =
      ["C1", "C10", "C2", "C3", "C4", "C5", "C6", "C7", "C8", "C9"] ∧
    all_violations t =
      DECL_IDS.flatMap (fun c => (all_violations t).filter fun v => v.constraint_id == c) := by
  constructor
  · rfl
  · simp only [DECL_IDS, List.flatMap_cons, List.flatMap_nil]
    rw [all_violations_filter_c1, all_violations_filter_c2, all_violations_filter_c3,
      all_violations_filter_c4, all_violations_filter_c5, all_violations_filter_c6,
      all_violations_filter_c7, all_violations_filter_c8, all_violations_filter_c9,
      all_violations_filter_c10]
    simp [all_violations, List.append_assoc]

/-- Claim C3: the engine is a pure function of the input tree — two
runs over the same unchanged tree produce identical summary rows and
identical violation lists, including row order. -/
theorem claim_C3_two_run_determinism (t1 t2 : RepoTree) (h : t1 = t2) :
    summary_rows t1 = summary_rows t2 ∧ all_violations t1 = all_violations t2 := by
  subst h
  exact ⟨rfl, rfl⟩

/-- Witness for claim C3 at a concrete tree. -/
theorem claim_C3_two_run_determinism_witness :
    summary_rows exTwoDomainFiles = summary_rows exTwoDomainFiles ∧
      all_violations exTwoDomainFiles = all_violations exTwoDomainFiles :=
  claim_C3_two_run_determinism exTwoDomainFiles exTwoDomainFiles rfl

/-- Claim C4: when the contracts directory `api/openapi` does not
exist, C8 does not fail; it reports non-compliant with exactly one
violation per configured expected contract file (6 by default), each
naming the missing file. -/
theorem claim_C4_missing_contracts_dir (t : RepoTree) (h : t.openapiDirExists = false) :
    (c8_result t).compliant = false ∧
    c8_viols t = EXPECTED_OPENAPI_FILES.map (fun e =>
      ⟨"C8", t.root ++ "/api/openapi/" ++ e, "Missing OpenAPI contract file: " ++ e⟩) ∧
    (c8_viols t).length = 6 := by
  have hv : c8_viols t = EXPECTED_OPENAPI_FILES.map (fun e =>
      ⟨"C8", t.root ++ "/api/openapi/" ++ e, "Missing OpenAPI contract file: " ++ e⟩) := by
    simp [c8_viols, c8_existing, h, EXPECTED_OPENAPI_FILES]
  have hl : (c8_viols t).length = 6 := by rw [hv]; rfl
  exact ⟨by simp [c8_result, hl], hv, hl⟩

/-- Witness for claim C4 at a concrete tree without the directory. -/
theorem claim_C4_missing_contracts_dir_witness :
    (c8_result exEmptyTree).compliant = false ∧
    c8_viols exEmptyTree = EXPECTED_OPENAPI_FILES.map (fun e =>
      ⟨"C8", exEmptyTree.root ++ "/api/openapi/" ++ e, "Missing OpenAPI contract file: " ++ e⟩) ∧
    (c8_viols exEmptyTree).length = 6 :=
  claim_C4_missing_contracts_dir exEmptyTree rfl

/-- Claim C5 counterexample: `com.bank.loan.port` contains a `port`
segment (its final one), yet a payment-context file importing it does
receive a C10 violation, because the code only exempts imports with an
interior `.port.` or `.api.` infix. -/
theorem claim_C5_port_segment_counterexample :
    ((dotSegments "com.bank.loan.port").contains "port") = true ∧
      check_c10_file exPayPortBare =
        [⟨"C10", exPayPortBare.path,
          "Direct cross-context import from 'loan': com.bank.loan.port"⟩] := by
  constructor
  · decide
  · decide

/-- Claim C5 as amended: a payment-context file importing
`com.bank.loan.LoanAccount` gets exactly one C10 violation; importing
`com.bank.loan.port.LoanPort` gets none; and any import containing
`.port.` or `.api.` as an infix (an interior port/api segment) never
yields a C10 violation — while a final `port`/`api` segment is not
exempted. -/
theorem claim_C5_cross_context_amended :
    check_c10_file exPayLoan =
      [⟨"C10", exPayLoan.path,
        "Direct cross-context import from 'loan': com.bank.loan.LoanAccount"⟩] ∧
    check_c10_file exPayPort = [] ∧
    ∀ ownCtx fpath imp : String,
      (hasSubstr imp ".port." = true ∨ hasSubstr imp ".api." = true) →
        c10_import_viols ownCtx fpath imp = [] := by
  refine ⟨by decide, by decide, ?_⟩
  intro ownCtx fpath imp h
  have hpa : (hasSubstr imp ".port." || hasSubstr imp ".api.") = true := by
    rcases h with h | h <;> simp [h]
  simp [c10_import_viols, ctx_map, hpa]

/-- Witness for the universal part of the amended claim C5. -/
theorem claim_C5_cross_context_amended_witness :
    c10_import_viols "payment" "/r/f.java" "com.bank.loan.port.LoanPort" = [] :=
  claim_C5_cross_context_amended.2.2 "payment" "/r/f.java"
    "com.bank.loan.port.LoanPort" (Or.inl (by decide))

/-- Claim C6: a non-test file in an adapter package whose class name
ends in a configured adapter suffix yields no C5 violation; a file in
the same package whose class name matches no adapter suffix and no
DTO-like suffix, in a non-DTO-like package, yields exactly one C5
violation. -/
theorem claim_C6_adapter_naming (jf : JavaFile)
    (htest : is_test_path jf.path = false)
    (hpkg : is_adapter_package jf.pkg = true) :
    (ADAPTER_SUFFIXES.any (fun s => strEndsWith (get_classname jf.path) s) = true →
      check_c5_file jf = []) ∧
    (ADAPTER_SUFFIXES.any (fun s => strEndsWith (get_classname jf.path) s) = false →
     is_dto_like_classname (get_classname jf.path) = false →
     is_dto_package jf.pkg = false →
     check_c5_file jf = [⟨"C5", jf.path,
       "Adapter class '" ++ get_classname jf.path ++ "' does not end with required suffix"⟩]) := by
  constructor
  · intro hsuf
    simp [check_c5_file, htest, hpkg, hsuf]
  · intro h1 h2 h3
    simp [check_c5_file, htest, hpkg, h1, h2, h3]

/-- Witness for claim C6: `FooAdapter` in an adapter package. -/
theorem claim_C6_adapter_naming_witness :
    check_c5_file exFooAdapter = [] :=
  (claim_C6_adapter_naming exFooAdapter (by decide) (by decide)).1 (by decide)

/-- Claim C7: a domain-package file importing `org.springframework.Foo`
yields exactly one C3 violation; the same file importing only
`java.util.List` yields none; an import matching several forbidden
patterns still yields exactly one violation, and in general a file
contributes at most one C3 violation per import. -/
theorem claim_C7_domain_forbidden_imports :
    check_c3_file exDomainSpring =
      [⟨"C3", exDomainSpring.path,
        "Domain imports forbidden dependency: org.springframework.Foo"⟩] ∧
    check_c3_file exDomainUtil = [] ∧
    check_c3_file exDomainMulti =
      [⟨"C3", exDomainMulti.path,
        "Domain imports forbidden dependency: org.springframework.infrastructure.Foo"⟩] ∧
    ∀ jf : JavaFile, (check_c3_file jf).length ≤ jf.imports.length := by
  refine ⟨by decide, by decide, by decide, ?_⟩
  intro jf
  unfold check_c3_file
  split
  · rw [List.length_map]
    exact List.length_filter_le _ _
  · simp

/-- Claim C8: a file whose package could not be extracted (empty
`rawPackage`) is outside the scope of every package-scoped classifier
and yields no violation under C3, C4, C5, C6, C7 or C10. -/
theorem claim_C8_empty_package_safe (jf : JavaFile) (h : jf.pkg = "") :
    is_domain_package jf.pkg = false ∧
    is_application_package jf.pkg = false ∧
    is_adapter_package jf.pkg = false ∧
    is_domain_event_package jf.pkg = false ∧
    is_application_service_package jf.pkg = false ∧
    check_c3_file jf = [] ∧ check_c4_file jf = [] ∧ check_c5_file jf = [] ∧
    check_c6_file jf = [] ∧ check_c7_file jf = [] ∧ check_c10_file jf = [] := by
  have hd : is_domain_package "" = false := by decide
  have ha : is_application_package "" = false := by decide
  have had : is_adapter_package "" = false := by decide
  have he : is_domain_event_package "" = false := by decide
  have has : is_application_service_package "" = false := by decide
  refine ⟨by rw [h]; exact hd, by rw [h]; exact ha, by rw [h]; exact had,
    by rw [h]; exact he, by rw [h]; exact has, ?_, ?_, ?_, ?_, ?_, ?_⟩
  · simp [check_c3_file, h, hd]
  · simp [check_c4_file, h, ha]
  · simp [check_c5_file, h, had]
  · simp [check_c6_file, h, he]
  · simp [check_c7_file, h, has, C7_ENFORCE_ONLY_APPLICATION_SERVICES]
  · simp [check_c10_file, h]

/-- Witness for claim C8 at a concrete record with empty package. -/
theorem claim_C8_empty_package_safe_witness :
    check_c3_file exNoPkg = [] ∧ check_c10_file exNoPkg = [] :=
  ⟨(claim_C8_empty_package_safe exNoPkg rfl).2.2.2.2.2.1,
   (claim_C8_empty_package_safe exNoPkg rfl).2.2.2.2.2.2.2.2.2.2⟩

/-- Claim C9: `read_file` is total on byte content — the third strict
attempt (latin-1) succeeds on every byte sequence, decoding each byte
to the code point of the same value, so no decode error propagates and
the final lossy fallback is never taken for decode failures. -/
theorem claim_C9_read_file_total (bs : List Nat) (h : ∀ b ∈ bs, b < 256) :
    latin1_decode bs = some bs ∧ (read_file bs).2 = false := by
  have hl : latin1_decode bs = some bs := by
    unfold latin1_decode
    rw [if_pos]
    exact List.all_eq_true.mpr fun b hb => decide_eq_true (h b hb)
  refine ⟨hl, ?_⟩
  rcases hu : utf8_decode bs with _ | cs
  · rcases hs : utf8_sig_decode bs with _ | cs
    · simp [read_file, hu, hs, hl]
    · simp [read_file, hu, hs]
  · simp [read_file, hu]

/-- Witness for claim C9 on bytes that are not valid UTF-8. -/
theorem claim_C9_read_file_total_witness :
    latin1_decode [255, 65] = some [255, 65] ∧ (read_file [255, 65]).2 = false :=
  claim_C9_read_file_total [255, 65] (by decide)

/-- Claim C10 counterexample: `Manifest.java` is not classified as a
test path (its lowered name ends in `fest.java`, not `test.java`), and
in an adapter package it receives a C5 violation — contrary to the
claim's inclusion of `Manifest.java` among test-classified files. -/
theorem claim_C10_test_suffix_counterexample :
    is_test_path exManifest.path = false ∧
      check_c5_file exManifest = [⟨"C5", exManifest.path,
        "Adapter class 'Manifest' does not end with required suffix"⟩] := by
  constructor
  · decide
  · decide

/-- Claim C10 as amended: any file whose normalised (lowered) path ends
with `test.java` — such as `Latest.java`, but not `Manifest.java` — is
classified as a test path and produces no C5 and no C7 violation,
regardless of its package or class-name suffix. -/
theorem claim_C10_test_suffix_amended (jf : JavaFile)
    (h : strEndsWith (normPath jf.path) "test.java" = true) :
    is_test_path jf.path = true ∧ check_c5_file jf = [] ∧ check_c7_file jf = [] := by
  have ht : is_test_path jf.path = true := by
    simp [is_test_path, h]
  exact ⟨ht, by simp [check_c5_file, ht], by simp [check_c7_file, ht]⟩

/-- Witness for the amended claim C10: `Latest.java` in an adapter
package is skipped by C5 and C7. -/
theorem claim_C10_test_suffix_amended_witness :
    is_test_path exLatest.path = true ∧ check_c5_file exLatest = [] ∧
      check_c7_file exLatest = [] :=
  claim_C10_test_suffix_amended exLatest (by decide)
